import Mathlib

/-!
Shallow embedding of the voice-driven stock-market assistant
(`data.py`, `main.py`, `ma.py`, `agent.py`) and proofs about its
claims.  External services (yfinance, DuckDuckGo, Google News pages,
newspaper article fetches, speech recognition, the LLM supervisor,
text-to-speech) are modelled as oracle arguments: each embedded
function receives the outcome of every external call it makes and
performs exactly the computation the Python source performs on it.
-/

/-- Python/JSON-like values: the return values of the tool functions are
Python dicts built from strings, lists, sets, `None`, and (for `ma.py`)
langchain message objects.  Numeric cells of the stock DataFrame are
carried opaquely as `PyVal`s inside records, never computed with. -/
inductive PyVal where
  | vnull  : PyVal
  | vstr   : String → PyVal
  | vnum   : Int → PyVal
  | vlist  : List PyVal → PyVal
  | vset   : List PyVal → PyVal
  | vdict  : List (String × PyVal) → PyVal
  | vhuman : PyVal → PyVal

/-- The keys of a Python dict literal, in insertion order. -/
def pyKeys : PyVal → List String
  | .vdict kvs => kvs.map Prod.fst
  | _ => []

/-- Dictionary lookup (`d[k]` / `d.get(k)`), `none` when `v` is not a
dict or the key is absent. -/
def pyGet (k : String) : PyVal → Option PyVal
  | .vdict kvs => kvs.lookup k
  | _ => none

/-! ## Historical price lookup (`data.py`, `fetch_stock_history`)

`yf.Ticker(ticker).history(start, end)` is an external call; we model its
outcome as `Except String DataFrame`: an exception carrying `str(e)`, or a
pandas DataFrame.  A yfinance history DataFrame carries the dates in its
index and the numeric series (Open/High/Low/Close/...) as named columns. -/

/-- A pandas DataFrame as returned by `yf.Ticker(...).history(...)`:
a date index, named columns and one row of cell values per index entry. -/
structure DataFrame where
  index   : List String
  columns : List String
  rows    : List (List PyVal)

/-- `DataFrame.empty`: true iff the frame has no elements
(no rows or no columns). -/
def DataFrame.isEmptyDF (df : DataFrame) : Bool :=
  df.rows.isEmpty || df.columns.isEmpty

/-- `DataFrame.to_dict('records')`: one dict per row mapping column name to
cell value.  The index (the dates) is not part of the records. -/
def DataFrame.to_dict_records (df : DataFrame) : List PyVal :=
  df.rows.map (fun r => .vdict (df.columns.zip r))

/-- `fetch_stock_history` from `data.py` (lines 185-207).  `yfOutcome` is
the outcome of the single external `stock.history(start, end)` call for
the given `(ticker, start_date, end_date)`. -/
def fetch_stock_history (yfOutcome : String → String → String → Except String DataFrame)
    (ticker start_date end_date : String) : PyVal :=
  match yfOutcome ticker start_date end_date with
  | .error e => .vdict [("status", .vstr "error"), ("message", .vstr e), ("data", .vnull)]
  | .ok history =>
    if history.isEmptyDF then
      .vdict [("status", .vstr "error"),
              ("message", .vstr "No data found for the given period."),
              ("data", .vnull)]
    else
      .vdict [("status", .vstr "success"), ("data", .vlist history.to_dict_records)]

/-! ## String helpers modelling Python string operations -/

/-- Python `s.split(sep)` for a single-character separator, at the
character-list level:  splits at every occurrence of `sep`, keeping empty
pieces, and always returns at least one piece. -/
def splitChar (sep : Char) : List Char → List (List Char)
  | [] => [[]]
  | c :: cs =>
    match splitChar sep cs with
    | [] => [[]]
    | h :: t => if c = sep then [] :: h :: t else (c :: h) :: t

/-- Python `url.split('/')`: single-character split on strings. -/
def pySplitSlash (s : String) : List String :=
  (splitChar '/' s.toList).map (fun l => ⟨l⟩)

/-- Whether the first character list is a prefix of the second. -/
def startsWithChars : List Char → List Char → Bool
  | [], _ => true
  | _ :: _, [] => false
  | a :: as, b :: bs => a == b && startsWithChars as bs

/-- Whether `sub` occurs as a contiguous run inside the second list. -/
def containsSubChars (sub : List Char) : List Char → Bool
  | [] => sub.isEmpty
  | c :: cs => startsWithChars sub (c :: cs) || containsSubChars sub cs

/-- Python `sub in s`: substring containment. -/
def containsSub (s sub : String) : Bool :=
  containsSubChars sub.toList s.toList

/-- Python `s[:n]`: the first `n` characters of a string. -/
def pyTake (s : String) (n : Nat) : String :=
  ⟨s.toList.take n⟩

/-- Break a character list at the first occurrence of `sep`:
the part before it and the part after it, or `none` when absent. -/
def breakAtSub (sep : List Char) : List Char → Option (List Char × List Char)
  | [] => if sep.isEmpty then some ([], []) else none
  | c :: cs =>
    if startsWithChars sep (c :: cs) then some ([], (c :: cs).drop sep.length)
    else
      match breakAtSub sep cs with
      | none => none
      | some (pre, post) => some (c :: pre, post)

/-- Split at every occurrence of `sep`, with structural fuel (one unit
per character suffices, since each cut consumes at least one character
for the non-empty separators used here). -/
def splitOnListFuel (sep : List Char) : Nat → List Char → List (List Char)
  | 0, l => [l]
  | fuel + 1, l =>
    match breakAtSub sep l with
    | none => [l]
    | some (pre, post) => pre :: splitOnListFuel sep fuel post

/-- Python `s.split(sep)` for a non-empty separator string. -/
def pySplit (s sep : String) : List String :=
  (splitOnListFuel sep.toList (s.toList.length + 1) s.toList).map (fun cs => ⟨cs⟩)

/-! ## Web/news search (`data.py`, `get_news_summary`, `get_news_urls`,
`search_duckduckgo`)

`Article(url).download(); article.parse()` is external; its outcome is an
`Option ArticleData` (`none` when download or parse raised).  `newspaper`
initialises `title`, `meta_description` and `text` to `""`, so absence of
an explicit description is the empty string (which is falsy in Python). -/

/-- The parsed article fields `get_news_summary` reads. -/
structure ArticleData where
  title : String
  meta_description : String
  text : String

/-- `get_news_summary` from `data.py` (lines 56-79).  `fetched` is the
outcome of `Article(url).download()/parse()`.  Any exception in the body
(a failed fetch, or `url.split('/')[2]` raising IndexError) is caught
and yields `None`. -/
def get_news_summary (url : String) (fetched : Option ArticleData) : Option PyVal :=
  match fetched with
  | none => none
  | some article =>
    match (pySplitSlash url).get? 2 with
    | none => none
    | some host =>
      some (.vdict
        [("title", .vstr article.title),
         ("summary", .vstr (if article.meta_description ≠ "" then article.meta_description
                            else pyTake article.text 250)),
         ("source", .vstr host),
         ("url", .vstr url)])

/-- The Google hosts filtered out of candidate news links
(`remove_url` in `get_news_urls`). -/
def remove_url : List String :=
  ["https://www.google.com", "https://maps.google.com", "https://play.google.com",
   "https://policies.google.com", "https://support.google.com", "https://accounts.google"]

/-- The per-link filter of `get_news_urls`: extract the target of a
`/url?q=` redirect and keep it when it mentions `http`, is not an msn
link, and is not one of the Google service hosts. -/
def newsLinkCandidate (href : String) : Option String :=
  if containsSub href "/url?q=" then
    let filter_url := (pySplit ((pySplit href "/url?q=").getLastD "") "&").headD ""
    if containsSub filter_url "http" && !containsSub filter_url "msn"
       && remove_url.all (fun r => !containsSub filter_url r) then
      some filter_url
    else none
  else none

/-- The accumulation loop of `get_news_urls`: walk the page's anchors,
add each acceptable target once (`news_links` is a set), and stop as soon
as the set has reached `max_results` entries. -/
def collectNewsLinks (maxResults : Nat) : List String → List String → List String
  | [], acc => acc
  | href :: rest, acc =>
    match newsLinkCandidate href with
    | none => collectNewsLinks maxResults rest acc
    | some u =>
      let acc2 := if u ∈ acc then acc else acc ++ [u]
      if maxResults ≤ acc2.length then acc2 else collectNewsLinks maxResults rest acc2

/-- `get_news_urls` from `data.py` (lines 81-125).  `page` is the outcome
of the `requests.get` + BeautifulSoup parse: the `href` attributes of the
page's anchors, or the exception message; any exception is caught and
yields `[]`.  Python's `set` iterates in unspecified order; the model
keeps insertion order, and no claim proved here depends on the order. -/
def get_news_urls (page : Except String (List String)) (maxResults : Nat) : List String :=
  match page with
  | .error _ => []
  | .ok hrefs => collectNewsLinks maxResults hrefs []

/-- A DuckDuckGo text result (`ddgs.text`): the fields the code reads. -/
structure TextItem where
  title : String
  body : String
  link : String

/-- A DuckDuckGo news result (`ddgs.news`); `date` models
`result.get("date", "")`. -/
structure NewsItem where
  title : String
  body : String
  link : String
  date : Option String

/-- Formatting of one text result inside `search_duckduckgo`. -/
def fmtTextResult (r : TextItem) : PyVal :=
  .vdict [("title", .vstr r.title), ("snippet", .vstr r.body), ("link", .vstr r.link)]

/-- Formatting of one news result inside `search_duckduckgo`. -/
def fmtNewsResult (r : NewsItem) : PyVal :=
  .vdict [("title", .vstr r.title), ("snippet", .vstr r.body), ("link", .vstr r.link),
          ("date", .vstr (r.date.getD ""))]

/-- The success dictionary `search_duckduckgo` builds. -/
def searchSuccess (tr nr ns : List PyVal) : PyVal :=
  .vdict [("status", .vstr "success"),
          ("results", .vdict [("text_results", .vlist tr),
                              ("news_results", .vlist nr),
                              ("news_summaries", .vlist ns)])]

/-- The error dictionary `search_duckduckgo` builds on an exception. -/
def searchError (msg : String) : PyVal :=
  .vdict [("status", .vstr "error"), ("message", .vstr msg), ("results", .vnull)]

/-- `search_duckduckgo` from `data.py` (lines 127-183).  `ddgs` is the
outcome of the `with DDGS()` block: an exception (which propagates to the
top-level handler), or the streams backing `ddgs.text`/`ddgs.news`, of
which the code takes `max_results=5` and `max_results=3`.  `page` feeds
`get_news_urls` (which catches its own failures) and `articleFetch` the
per-URL `get_news_summary` calls (which catch theirs). -/
def search_duckduckgo (query : String)
    (ddgs : String → Except String (List TextItem × List NewsItem))
    (page : String → Except String (List String))
    (articleFetch : String → Option ArticleData) : PyVal :=
  match ddgs query with
  | .error e => searchError e
  | .ok (textStream, newsStream) =>
    let text_results := textStream.take 5
    let news_results := newsStream.take 3
    let news_urls := get_news_urls (page query) 5
    let news_summaries := news_urls.filterMap (fun u => get_news_summary u (articleFetch u))
    searchSuccess (text_results.map fmtTextResult) (news_results.map fmtNewsResult)
      news_summaries

/-! ## Supervisor entry points (`ma.py` and `main.py`, `process_user_query`)

Both files call `supervisor.compile().invoke(payload)`.  The payloads the
two entry points build are embedded literally.  In `main.py` the
`content` value is the Python set literal `{query}`, not the string
`query`, and the top-level key is `"Message"`, not `"messages"`. -/

/-- The `invoke` payload built by `process_user_query` in `ma.py`
(lines 44-50): `{"messages": [HumanMessage(content=query)]}`. -/
def ma_invoke_payload (query : String) : PyVal :=
  .vdict [("messages", .vlist [.vhuman (.vstr query)])]

/-- The `invoke` payload built by `process_user_query` in `main.py`
(lines 50-54): `{"Message": [{"role": "user", "content": {query}}]}` —
the key is `"Message"` and the content is a set containing the query. -/
def main_invoke_payload (query : String) : PyVal :=
  .vdict [("Message", .vlist [.vdict [("role", .vstr "user"),
                                      ("content", .vset [.vstr query])]])]

/-- A conversation turn is a User-tagged turn carrying `query` as string
content when it is either a `HumanMessage(content=query)` object or a
`{"role": "user", "content": query}` dict with string content. -/
def isUserTurnWithText (query : String) : PyVal → Prop
  | .vhuman (.vstr c) => c = query
  | .vdict kvs => kvs.lookup "role" = some (.vstr "user")
                  ∧ kvs.lookup "content" = some (.vstr query)
  | _ => False

/-- The payload shape the spec describes for the supervisor boundary:
a conversation keyed `"messages"` whose (ordered) turns include the
query as a User-tagged turn with string content. -/
def goodSupervisorPayload (query : String) (p : PyVal) : Prop :=
  ∃ turns : List PyVal,
    pyGet "messages" p = some (.vlist turns) ∧
    ∃ t ∈ turns, isUserTurnWithText query t

/-! ## Session pipeline (`main.py`, `transcribe_audio`)

The langchain message objects in the supervisor's result trace: the loop
at lines 78-82 only distinguishes `AIMessage` instances from everything
else (`HumanMessage`, tool and system messages). -/

/-- A message in the supervisor's output trace. -/
inductive Msg where
  | human  : String → Msg
  | ai     : String → Msg
  | tool   : String → Msg
  | system : String → Msg

/-- `isinstance(message, AIMessage)`. -/
def Msg.isAI : Msg → Bool
  | .ai _ => true
  | _ => false

/-- `message.content` of a trace message. -/
def Msg.content : Msg → String
  | .human c => c
  | .ai c => c
  | .tool c => c
  | .system c => c

/-- The final-response extraction of `transcribe_audio` (lines 78-82):
scan the messages from the end, take the content of the first
`AIMessage` found, defaulting to `""` when the trace has none. -/
def extractFinal (msgs : List Msg) : String :=
  (((msgs.reverse).find? Msg.isAI).map Msg.content).getD ""

/-- The outcome of `recognizer.recognize_google`: a transcription, or one
of the exceptions the endpoint catches specially (`sr.UnknownValueError`,
`sr.RequestError`), or any other exception. -/
inductive RecOutcome where
  | ok : String → RecOutcome
  | unknownValue : RecOutcome
  | requestError : String → RecOutcome
  | otherFailure : String → RecOutcome

/-- The JSON body `transcribe_audio` returns on an exception `e`
propagating to the generic handler: `{"error": str(e)}`. -/
def pipelineError (e : String) : PyVal := .vdict [("error", .vstr e)]

/-- `transcribe_audio` from `main.py` (lines 57-101), as a function of the
outcomes of its external calls: saving/reading the upload (`save`), the
pydub conversion (`convert`), speech recognition (`recog`), the
supervisor invocation (`sup`, the `messages` list of the result — any
exception it raises, including one caused by the malformed
`main_invoke_payload`, lands in the generic handler), text-to-speech
(`tts`, a function of the text spoken), and the generated `uuid4().hex`.
Every failure path returns a one-field `{"error": ...}` body; the
success path returns `{"transcription", "response", "audio_url"}`. -/
def transcribe_audio (save convert : Except String Unit) (recog : RecOutcome)
    (sup : Except String (List Msg)) (tts : String → Except String Unit)
    (uuid : String) : PyVal :=
  match save with
  | .error e => pipelineError e
  | .ok _ =>
  match convert with
  | .error e => pipelineError e
  | .ok _ =>
  match recog with
  | .unknownValue => pipelineError "Google Speech Recognition could not understand audio"
  | .requestError e => pipelineError ("Could not request results from Google; " ++ e)
  | .otherFailure e => pipelineError e
  | .ok text =>
  match sup with
  | .error e => pipelineError e
  | .ok msgs =>
  let final_response := extractFinal msgs
  match tts final_response with
  | .error e => pipelineError e
  | .ok _ =>
    .vdict [("transcription", .vstr text),
            ("response", .vstr final_response),
            ("audio_url", .vstr ("/static/response_" ++ uuid ++ ".mp3"))]

/-- The audio file paths one request to `transcribe_audio` writes, in
order: the saved upload (`open("temp.wav", "wb")`, line 63), the
converted scratch file (`sound.export("converted.wav")`, line 68), and
the response artifact (`tts.save("static/response_" + uuid4().hex +
".mp3")`, lines 85-88). -/
def writtenPaths (uuid : String) : List String :=
  ["temp.wav", "converted.wav", "static/response_" ++ uuid ++ ".mp3"]

/-! ## Concrete frames used in counterexamples and witnesses -/

/-- The yfinance result for an unknown ticker or an inverted date range:
an empty DataFrame. -/
def emptyFrame : DataFrame := ⟨[], [], []⟩

/-- A one-day yfinance history frame shaped as `yf.Ticker(...).history`
returns it: the trading date lives in the DataFrame index and the
columns are the numeric series — no date column. -/
def dfAAPL : DataFrame :=
  ⟨["2024-01-02"], ["Open", "High", "Low", "Close", "Volume"],
   [[.vnum 185, .vnum 186, .vnum 184, .vnum 185, .vnum 1000]]⟩

/-! # Theorems -/

/-! ### List helper lemmas -/

/-- A lookup on an association list succeeds when the key occurs among
the mapped-out keys. -/
theorem lookup_isSome_of_mem_keys {l : List (String × PyVal)} {a : String}
    (h : a ∈ l.map Prod.fst) : (l.lookup a).isSome = true := by
  induction l with
  | nil => simp at h
  | cons kv rest ih =>
    obtain ⟨k, v⟩ := kv
    rw [List.map_cons, List.mem_cons] at h
    by_cases hak : a = k
    · subst hak; simp [List.lookup]
    · have hmem : a ∈ rest.map Prod.fst := by
        rcases h with h | h
        · exact absurd h hak
        · exact h
      have hbeq : (a == k) = false := by simp [hak]
      simp only [List.lookup, hbeq]
      exact ih hmem

/-- A lookup on an association list fails when the key does not occur
among the mapped-out keys. -/
theorem lookup_eq_none_of_not_mem_keys {l : List (String × PyVal)} {a : String}
    (h : a ∉ l.map Prod.fst) : l.lookup a = none := by
  induction l with
  | nil => rfl
  | cons kv rest ih =>
    obtain ⟨k, v⟩ := kv
    rw [List.map_cons, List.mem_cons] at h
    push_neg at h
    have hbeq : (a == k) = false := by simp [h.1]
    simp only [List.lookup, hbeq]
    exact ih h.2

/-! ### C2: empty result set for the historical price lookup -/

/-- C2: for every well-formed input whose yfinance result set is empty
(unknown ticker, inverted date range), `fetch_stock_history` returns
status `"error"` with the message exactly
`"No data found for the given period."` (a non-empty message) and a
null data payload. -/
theorem fetch_stock_history_empty_result
    (yfOutcome : String → String → String → Except String DataFrame)
    (ticker start_date end_date : String) (df : DataFrame)
    (hfetch : yfOutcome ticker start_date end_date = .ok df)
    (hempty : df.isEmptyDF = true) :
    fetch_stock_history yfOutcome ticker start_date end_date
      = .vdict [("status", .vstr "error"),
                ("message", .vstr "No data found for the given period."),
                ("data", .vnull)]
    ∧ "No data found for the given period." ≠ ""
    ∧ pyGet "data" (fetch_stock_history yfOutcome ticker start_date end_date)
        = some .vnull := by
  have hout : fetch_stock_history yfOutcome ticker start_date end_date
      = .vdict [("status", .vstr "error"),
                ("message", .vstr "No data found for the given period."),
                ("data", .vnull)] := by
    simp [fetch_stock_history, hfetch, hempty]
  refine ⟨hout, by decide, ?_⟩
  rw [hout]
  rfl

/-- Witness for C2 at the concrete input of the spec scenario:
ticker `"ZZZZINVALID"`, where yfinance yields an empty frame. -/
theorem fetch_stock_history_empty_result_witness :
    fetch_stock_history (fun _ _ _ => .ok emptyFrame) "ZZZZINVALID" "2024-01-01" "2024-03-01"
      = .vdict [("status", .vstr "error"),
                ("message", .vstr "No data found for the given period."),
                ("data", .vnull)]
    ∧ "No data found for the given period." ≠ ""
    ∧ pyGet "data"
        (fetch_stock_history (fun _ _ _ => .ok emptyFrame) "ZZZZINVALID" "2024-01-01" "2024-03-01")
        = some .vnull :=
  fetch_stock_history_empty_result (fun _ _ _ => .ok emptyFrame)
    "ZZZZINVALID" "2024-01-01" "2024-03-01" emptyFrame rfl rfl

/-! ### C3: shape of a successful historical price payload -/

/-- C3 counterexample: on a one-day yfinance frame (date in the index,
as yfinance returns it), the success payload's single record carries
exactly the column keys `Open/High/Low/Close/Volume` — a closing price,
but no date field, because `to_dict('records')` drops the index. -/
theorem fetch_stock_history_record_has_no_date_field :
    fetch_stock_history (fun _ _ _ => .ok dfAAPL) "AAPL" "2024-01-01" "2024-03-01"
      = .vdict [("status", .vstr "success"),
                ("data", .vlist [.vdict [("Open", .vnum 185), ("High", .vnum 186),
                                         ("Low", .vnum 184), ("Close", .vnum 185),
                                         ("Volume", .vnum 1000)]])]
    ∧ pyKeys (.vdict [("Open", .vnum 185), ("High", .vnum 186), ("Low", .vnum 184),
                      ("Close", .vnum 185), ("Volume", .vnum 1000)])
        = ["Open", "High", "Low", "Close", "Volume"]
    ∧ "Date" ∉ ["Open", "High", "Low", "Close", "Volume"]
    ∧ "date" ∉ ["Open", "High", "Low", "Close", "Volume"]
    ∧ "Close" ∈ ["Open", "High", "Low", "Close", "Volume"] :=
  ⟨rfl, rfl, by decide, by decide, by decide⟩

/-- C3 (amended): whenever `fetch_stock_history` succeeds, its data
payload is a non-empty ordered sequence of records whose keys are
exactly the frame's columns; every record contains a closing price
field, and — the date being the frame's index, not a column — no date
field. -/
theorem fetch_stock_history_success_records
    (yfOutcome : String → String → String → Except String DataFrame)
    (ticker start_date end_date : String) (df : DataFrame)
    (hfetch : yfOutcome ticker start_date end_date = .ok df)
    (hrows : df.rows ≠ [])
    (hclose : "Close" ∈ df.columns)
    (hdate : "Date" ∉ df.columns)
    (hrect : ∀ r ∈ df.rows, r.length = df.columns.length) :
    ∃ recs : List PyVal,
      fetch_stock_history yfOutcome ticker start_date end_date
        = .vdict [("status", .vstr "success"), ("data", .vlist recs)]
      ∧ recs ≠ []
      ∧ ∀ rec ∈ recs, ∃ kvs, rec = .vdict kvs
          ∧ kvs.map Prod.fst = df.columns
          ∧ (kvs.lookup "Close").isSome = true
          ∧ kvs.lookup "Date" = none := by
  have hcols : df.columns ≠ [] := List.ne_nil_of_mem hclose
  have hempty : df.isEmptyDF = false := by
    simp [DataFrame.isEmptyDF, List.isEmpty_iff, hrows, hcols]
  refine ⟨df.to_dict_records, ?_, ?_, ?_⟩
  · simp [fetch_stock_history, hfetch, hempty]
  · simpa [DataFrame.to_dict_records] using hrows
  · intro rec hrec
    rw [DataFrame.to_dict_records, List.mem_map] at hrec
    obtain ⟨r, hr, hrecEq⟩ := hrec
    have hlen : df.columns.length ≤ r.length := le_of_eq (hrect r hr).symm
    have hkeys : (df.columns.zip r).map Prod.fst = df.columns :=
      List.map_fst_zip _ _ hlen
    refine ⟨df.columns.zip r, hrecEq.symm, hkeys, ?_, ?_⟩
    · exact lookup_isSome_of_mem_keys (by rw [hkeys]; exact hclose)
    · exact lookup_eq_none_of_not_mem_keys (by rw [hkeys]; exact hdate)

/-- Witness for the amended C3 at the concrete one-day AAPL frame. -/
theorem fetch_stock_history_success_records_witness :
    ∃ recs : List PyVal,
      fetch_stock_history (fun _ _ _ => .ok dfAAPL) "AAPL" "2024-01-01" "2024-03-01"
        = .vdict [("status", .vstr "success"), ("data", .vlist recs)]
      ∧ recs ≠ []
      ∧ ∀ rec ∈ recs, ∃ kvs, rec = .vdict kvs
          ∧ kvs.map Prod.fst = dfAAPL.columns
          ∧ (kvs.lookup "Close").isSome = true
          ∧ kvs.lookup "Date" = none :=
  fetch_stock_history_success_records (fun _ _ _ => .ok dfAAPL)
    "AAPL" "2024-01-01" "2024-03-01" dfAAPL rfl
    (List.cons_ne_nil _ _) (by decide) (by decide)
    (by intro r hr; simp only [dfAAPL] at hr; simp at hr; subst hr; rfl)

/-! ### C4: independence of the two sub-fetches inside `search_duckduckgo` -/

/-- C4 counterexample: when the DDGS fetch raises (network unreachable)
while the news-URL-derived summary sub-fetch would succeed with a
non-empty summary list, the call returns the error dictionary with a
null `results` field — the successful sub-fetch's partial results are
not returned, so a failure of one sub-fetch does prevent the other's
results. -/
theorem search_ddgs_failure_discards_news_results :
    search_duckduckgo "AAPL news" (fun _ => .error "network unreachable")
        (fun _ => .ok ["/url?q=https://news.site/article&sa=x"])
        (fun _ => some ⟨"Title", "Desc", "Body"⟩)
      = searchError "network unreachable"
    ∧ ((get_news_urls (.ok ["/url?q=https://news.site/article&sa=x"]) 5).filterMap
        (fun u => get_news_summary u (some ⟨"Title", "Desc", "Body"⟩))).length = 1
    ∧ pyGet "results" (searchError "network unreachable") = some .vnull :=
  ⟨rfl, rfl, rfl⟩

/-- C4 (amended): the independence holds in one direction only — a total
failure of the news-URL-derived sub-fetch (the Google page fetch raises
and every article fetch fails) never prevents the DDGS text/news results
from being returned: the call still succeeds with the DDGS subset and an
empty summary list.  (A DDGS failure, by contrast, aborts the whole call:
see the counterexample.) -/
theorem search_news_failure_keeps_ddgs_results (query e : String)
    (textStream : List TextItem) (newsStream : List NewsItem) :
    search_duckduckgo query (fun _ => .ok (textStream, newsStream))
        (fun _ => .error e) (fun _ => none)
      = searchSuccess ((textStream.take 5).map fmtTextResult)
          ((newsStream.take 3).map fmtNewsResult) [] := by
  simp [search_duckduckgo, get_news_urls]

/-! ### C5: success/error surface of `search_duckduckgo` -/

/-- C5 counterexample: the error-tagged result of `search_duckduckgo`
carries a `results` field (set to null) besides `status` and `message` —
it is not true that an error result carries no payload fields other than
the message. -/
theorem search_error_carries_results_field :
    search_duckduckgo "AAPL news" (fun _ => .error "boom")
        (fun _ => .error "x") (fun _ => none)
      = searchError "boom"
    ∧ pyKeys (searchError "boom") = ["status", "message", "results"]
    ∧ pyGet "results" (searchError "boom") = some .vnull :=
  ⟨rfl, rfl, rfl⟩

/-- C5 (amended): for every query, `search_duckduckgo` returns either a
success result whose payload has all three fields `text_results`,
`news_results`, `news_summaries` present as lists (each possibly empty),
or an error-tagged result whose message is present and whose only
further field is `results` explicitly set to null — never a non-null
partial success payload together with an error tag. -/
theorem search_duckduckgo_surface (query : String)
    (ddgs : String → Except String (List TextItem × List NewsItem))
    (page : String → Except String (List String))
    (articleFetch : String → Option ArticleData) :
    (∃ tr nr ns, search_duckduckgo query ddgs page articleFetch = searchSuccess tr nr ns)
    ∨ (∃ m, search_duckduckgo query ddgs page articleFetch = searchError m
        ∧ pyGet "results" (searchError m) = some .vnull
        ∧ pyGet "message" (searchError m) = some (.vstr m)) := by
  cases h : ddgs query with
  | error e =>
    right
    exact ⟨e, by simp [search_duckduckgo, h], rfl, rfl⟩
  | ok streams =>
    left
    obtain ⟨textStream, newsStream⟩ := streams
    refine ⟨(textStream.take 5).map fmtTextResult, (newsStream.take 3).map fmtNewsResult,
      (get_news_urls (page query) 5).filterMap
        (fun u => get_news_summary u (articleFetch u)), ?_⟩
    simp [search_duckduckgo, h]

/-! ### C10: result bounds and completeness of summary records -/

/-- The `news_links` accumulation loop never grows the set beyond
`maxResults` when it starts strictly below it. -/
theorem collectNewsLinks_length_le (maxResults : Nat) (hrefs : List String) :
    ∀ acc : List String, acc.length < maxResults →
      (collectNewsLinks maxResults hrefs acc).length ≤ maxResults := by
  induction hrefs with
  | nil =>
    intro acc h
    simpa [collectNewsLinks] using Nat.le_of_lt h
  | cons href rest ih =>
    intro acc h
    cases hc : newsLinkCandidate href with
    | none =>
      simp only [collectNewsLinks, hc]
      exact ih acc h
    | some u =>
      simp only [collectNewsLinks, hc]
      by_cases hmem : u ∈ acc
      · simp only [if_pos hmem]
        have hstop : ¬ maxResults ≤ acc.length := Nat.not_le.mpr h
        simp only [if_neg hstop]
        exact ih acc h
      · simp only [if_neg hmem]
        have hlen : (acc ++ [u]).length = acc.length + 1 := by simp
        by_cases hstop : maxResults ≤ (acc ++ [u]).length
        · simp only [if_pos hstop]
          omega
        · simp only [if_neg hstop]
          exact ih (acc ++ [u]) (by omega)

/-- `get_news_urls` with `max_results=5` returns at most 5 URLs. -/
theorem get_news_urls_length_le (page : Except String (List String)) :
    (get_news_urls page 5).length ≤ 5 := by
  cases page with
  | error e => simp [get_news_urls]
  | ok hrefs => exact collectNewsLinks_length_le 5 hrefs [] (by decide)

/-- C10: every success result of `search_duckduckgo` has at most 5
text results, at most 3 news results, and at most 5 news summaries, and
every news-summary entry is a complete record with exactly the fields
`title`, `summary`, `source`, `url` — URLs whose download or parse fails
are silently omitted, never included as null entries. -/
theorem search_duckduckgo_success_bounded (query : String)
    (textStream : List TextItem) (newsStream : List NewsItem)
    (page : String → Except String (List String))
    (articleFetch : String → Option ArticleData) :
    ∃ tr nr ns,
      search_duckduckgo query (fun _ => .ok (textStream, newsStream)) page articleFetch
        = searchSuccess tr nr ns
      ∧ tr.length ≤ 5 ∧ nr.length ≤ 3 ∧ ns.length ≤ 5
      ∧ ∀ s ∈ ns, ∃ t su so u,
          s = .vdict [("title", .vstr t), ("summary", .vstr su),
                      ("source", .vstr so), ("url", .vstr u)] := by
  refine ⟨(textStream.take 5).map fmtTextResult, (newsStream.take 3).map fmtNewsResult,
    (get_news_urls (page query) 5).filterMap (fun u => get_news_summary u (articleFetch u)),
    rfl, ?_, ?_, ?_, ?_⟩
  · simp [List.length_take]
  · simp [List.length_take]
  · exact le_trans (List.length_filterMap_le _ _) (get_news_urls_length_le _)
  · intro s hs
    rw [List.mem_filterMap] at hs
    obtain ⟨u, _, hsum⟩ := hs
    cases hart : articleFetch u with
    | none =>
      rw [hart] at hsum
      simp only [get_news_summary] at hsum
      exact Option.noConfusion hsum
    | some article =>
      rw [hart] at hsum
      simp only [get_news_summary] at hsum
      cases hhost : (pySplitSlash u).get? 2 with
      | none =>
        rw [hhost] at hsum
        exact Option.noConfusion hsum
      | some host =>
        rw [hhost] at hsum
        exact ⟨article.title, _, host, u, (Option.some.inj hsum).symm⟩

/-! ### C1: the two supervisor entry points -/

/-- C1 counterexample: at the concrete query `"AAPL news"`, the `ma.py`
entry point's payload has the spec's shape — a `"messages"` conversation
containing the query as a User-tagged turn with string content — but the
`main.py` entry point's payload does not (its only key is `"Message"`),
and the two payloads differ, so the two entry points do not invoke the
supervisor with the same payload shape. -/
theorem invoke_payloads_diverge :
    goodSupervisorPayload "AAPL news" (ma_invoke_payload "AAPL news")
    ∧ ¬ goodSupervisorPayload "AAPL news" (main_invoke_payload "AAPL news")
    ∧ ma_invoke_payload "AAPL news" ≠ main_invoke_payload "AAPL news" := by
  refine ⟨⟨[.vhuman (.vstr "AAPL news")], rfl, .vhuman (.vstr "AAPL news"),
    List.mem_singleton.mpr rfl, rfl⟩, ?_, ?_⟩
  · rintro ⟨turns, hlook, -⟩
    exact Option.noConfusion hlook
  · intro h
    injection h with h1
    injection h1 with h2
    injection h2 with h3
    exact absurd h3 (by decide)

/-- C1 (amended): only the `ma.py` entry point invokes the compiled
supervisor with a `"messages"`-keyed conversation holding the query as a
User-tagged turn with string content; the `main.py` entry point instead
sends a payload keyed `"Message"` whose single turn's `content` is a set
containing the query rather than the query string. -/
theorem ma_payload_good_main_payload_divergent (query : String) :
    goodSupervisorPayload query (ma_invoke_payload query)
    ∧ pyGet "messages" (main_invoke_payload query) = none
    ∧ pyGet "Message" (main_invoke_payload query)
        = some (.vlist [.vdict [("role", .vstr "user"),
                                ("content", .vset [.vstr query])]]) :=
  ⟨⟨[.vhuman (.vstr query)], rfl, .vhuman (.vstr query),
    List.mem_singleton.mpr rfl, rfl⟩, rfl, rfl⟩

/-! ### C6: request/response surface of the transcription pipeline -/

/-- C6: every response of `/transcribe/` is either a success object with
exactly the fields `transcription`, `response`, `audio_url`, or a
one-field error object `{error}`; in particular an unintelligible-audio
failure (`sr.UnknownValueError`) yields the one-field error object with
no response or audio_url fields. -/
theorem transcribe_audio_surface (save convert : Except String Unit)
    (recog : RecOutcome) (sup : Except String (List Msg))
    (tts : String → Except String Unit) (uuid : String) :
    (pyKeys (transcribe_audio save convert recog sup tts uuid)
        = ["transcription", "response", "audio_url"]
     ∨ pyKeys (transcribe_audio save convert recog sup tts uuid) = ["error"])
    ∧ transcribe_audio (.ok ()) (.ok ()) .unknownValue sup tts uuid
        = pipelineError "Google Speech Recognition could not understand audio"
    ∧ pyKeys (pipelineError "Google Speech Recognition could not understand audio")
        = ["error"] := by
  refine ⟨?_, rfl, rfl⟩
  cases save with
  | error e => exact Or.inr rfl
  | ok _ =>
    cases convert with
    | error e => exact Or.inr rfl
    | ok _ =>
      cases recog with
      | unknownValue => exact Or.inr rfl
      | requestError e => exact Or.inr rfl
      | otherFailure e => exact Or.inr rfl
      | ok text =>
        cases sup with
        | error e => exact Or.inr rfl
        | ok msgs =>
          cases htts : tts (extractFinal msgs) with
          | error e =>
            refine Or.inr ?_
            simp [transcribe_audio, htts, pipelineError, pyKeys]
          | ok _ =>
            refine Or.inl ?_
            simp [transcribe_audio, htts, pyKeys]

/-! ### C7: the pipeline's response text is the last Assistant turn -/

/-- `extractFinal` picks the content of the last `AIMessage` of the
trace whenever the trace contains one. -/
theorem extractFinal_last_ai (pre post : List Msg) (c : String)
    (hpost : ∀ m ∈ post, m.isAI = false) :
    extractFinal (pre ++ Msg.ai c :: post) = c := by
  unfold extractFinal
  rw [List.reverse_append, List.reverse_cons, List.append_assoc,
    List.find?_append, List.find?_append]
  have hnone : post.reverse.find? Msg.isAI = none :=
    List.find?_eq_none.mpr (fun m hm => by
      simp [hpost m (List.mem_reverse.mp hm)])
  rw [hnone]
  rfl

/-- C7: for every supervisor result trace handled by the pipeline whose
messages contain an Assistant turn, the `response` field of the success
body equals the content of the last Assistant-tagged (`AIMessage`) turn
of the trace, scanned from the end. -/
theorem pipeline_response_is_last_assistant (text uuid c : String)
    (pre post : List Msg) (hpost : ∀ m ∈ post, m.isAI = false) :
    pyGet "response" (transcribe_audio (.ok ()) (.ok ()) (.ok text)
        (.ok (pre ++ Msg.ai c :: post)) (fun _ => .ok ()) uuid)
      = some (.vstr c)
    ∧ extractFinal (pre ++ Msg.ai c :: post) = c := by
  have hext := extractFinal_last_ai pre post c hpost
  constructor
  · show pyGet "response"
      (.vdict [("transcription", .vstr text),
               ("response", .vstr (extractFinal (pre ++ Msg.ai c :: post))),
               ("audio_url", .vstr ("/static/response_" ++ uuid ++ ".mp3"))])
      = some (.vstr c)
    rw [hext]
    rfl
  · exact hext

/-- Witness for C7 on a concrete delegation trace: the response is the
content of the last AIMessage, not of an earlier one. -/
theorem pipeline_response_is_last_assistant_witness :
    pyGet "response" (transcribe_audio (.ok ()) (.ok ()) (.ok "price of AAPL")
        (.ok ([Msg.human "price of AAPL", Msg.ai "delegating", Msg.tool "raw data"]
          ++ Msg.ai "AAPL closed at 190" :: [Msg.tool "trace tail"]))
        (fun _ => .ok ()) "abc123")
      = some (.vstr "AAPL closed at 190")
    ∧ extractFinal ([Msg.human "price of AAPL", Msg.ai "delegating", Msg.tool "raw data"]
        ++ Msg.ai "AAPL closed at 190" :: [Msg.tool "trace tail"])
      = "AAPL closed at 190" :=
  pipeline_response_is_last_assistant "price of AAPL" "abc123" "AAPL closed at 190"
    [Msg.human "price of AAPL", Msg.ai "delegating", Msg.tool "raw data"]
    [Msg.tool "trace tail"] (by decide)

/-! ### C9: file paths written by concurrent requests -/

/-- C9: the scratch audio paths are fixed names shared by every request;
two requests with distinct response-artifact identifiers still both
write `temp.wav` and `converted.wav`, so their sets of written paths are
not disjoint — only the response artifact path is per-request unique. -/
theorem written_paths_not_disjoint :
    "3f2a" ≠ "9c81"
    ∧ "temp.wav" ∈ writtenPaths "3f2a" ∧ "temp.wav" ∈ writtenPaths "9c81"
    ∧ "converted.wav" ∈ writtenPaths "3f2a" ∧ "converted.wav" ∈ writtenPaths "9c81"
    ∧ ¬ (∀ p ∈ writtenPaths "3f2a", p ∉ writtenPaths "9c81") := by
  refine ⟨by decide, by decide, by decide, by decide, by decide, fun h => ?_⟩
  exact h "temp.wav" (by decide) (by decide)

/-! ### C8: shape of a news summary record -/

/-- `splitChar` always yields at least one piece. -/
theorem splitChar_ne_nil (sep : Char) : ∀ l : List Char, splitChar sep l ≠ [] := by
  intro l
  cases l with
  | nil => simp [splitChar]
  | cons c cs =>
    simp only [splitChar]
    cases h : splitChar sep cs with
    | nil => simp
    | cons h t =>
      by_cases hc : c = sep
      · simp [hc]
      · simp [hc]

/-- Splitting a list that opens with a separator-free block followed by
the separator yields that block as the first piece. -/
theorem splitChar_append_sep (sep : Char) (ys : List Char) :
    ∀ xs : List Char, sep ∉ xs →
      splitChar sep (xs ++ sep :: ys) = xs :: splitChar sep ys := by
  intro xs
  induction xs with
  | nil =>
    intro _
    simp only [List.nil_append, splitChar]
    cases h : splitChar sep ys with
    | nil => exact absurd h (splitChar_ne_nil sep ys)
    | cons h t => simp
  | cons x xs ih =>
    intro hnot
    rw [List.mem_cons] at hnot
    push_neg at hnot
    have hx : ¬ x = sep := fun h => hnot.1 h.symm
    have hxs : splitChar sep (xs.append (sep :: ys)) = xs :: splitChar sep ys := ih hnot.2
    simp only [List.cons_append, splitChar]
    rw [hxs]
    simp [hx]

/-- C8: for every article URL of the shape `scheme://host/rest` (the
scheme and host contain no slash) whose fetch succeeds,
`get_news_summary` returns a record with exactly the fields `title`,
`summary`, `source`, `url`; `source` is the host component of the URL;
and `summary` is the article's explicit description when one exists,
otherwise the article body truncated to at most 250 characters. -/
theorem get_news_summary_shape (scheme host rest : String) (article : ArticleData)
    (hscheme : '/' ∉ scheme.toList) (hhost : '/' ∉ host.toList) :
    get_news_summary (scheme ++ "://" ++ host ++ "/" ++ rest) (some article)
      = some (.vdict
          [("title", .vstr article.title),
           ("summary", .vstr (if article.meta_description ≠ "" then article.meta_description
                              else pyTake article.text 250)),
           ("source", .vstr host),
           ("url", .vstr (scheme ++ "://" ++ host ++ "/" ++ rest))])
    ∧ pyKeys (.vdict
          [("title", .vstr article.title),
           ("summary", .vstr (if article.meta_description ≠ "" then article.meta_description
                              else pyTake article.text 250)),
           ("source", .vstr host),
           ("url", .vstr (scheme ++ "://" ++ host ++ "/" ++ rest))])
        = ["title", "summary", "source", "url"]
    ∧ (pyTake article.text 250).length ≤ 250 := by
  have hdata : (scheme ++ "://" ++ host ++ "/" ++ rest).toList
      = (scheme.toList ++ [':']) ++ '/' :: ([] ++ '/' :: (host.toList ++ '/' :: rest.toList)) := by
    show (scheme ++ "://" ++ host ++ "/" ++ rest).data
      = (scheme.data ++ [':']) ++ '/' :: ([] ++ '/' :: (host.data ++ '/' :: rest.data))
    simp [String.data_append]
  have hsplit : pySplitSlash (scheme ++ "://" ++ host ++ "/" ++ rest)
      = ((⟨scheme.toList ++ [':']⟩ : String)
          :: ("" : String) :: host :: (splitChar '/' rest.toList).map (fun l => (⟨l⟩ : String))) := by
    unfold pySplitSlash
    rw [hdata, splitChar_append_sep '/' _ _ (by
        intro hmem
        rw [List.mem_append] at hmem
        rcases hmem with hmem | hmem
        · exact hscheme hmem
        · simp at hmem),
      splitChar_append_sep '/' _ [] (by simp),
      splitChar_append_sep '/' _ _ hhost]
    rfl
  have hget : (pySplitSlash (scheme ++ "://" ++ host ++ "/" ++ rest)).get? 2 = some host := by
    rw [hsplit]
    rfl
  refine ⟨?_, rfl, ?_⟩
  · simp only [get_news_summary, hget]
  · show (article.text.toList.take 250).length ≤ 250
    simp [List.length_take]

/-- Witness for C8 at a concrete article URL. -/
theorem get_news_summary_shape_witness :
    get_news_summary ("https" ++ "://" ++ "news.site" ++ "/" ++ "markets/article-1")
        (some ⟨"AAPL up", "Apple rallied.", "Full body."⟩)
      = some (.vdict
          [("title", .vstr "AAPL up"),
           ("summary", .vstr (if ("Apple rallied." : String) ≠ "" then "Apple rallied."
                              else pyTake "Full body." 250)),
           ("source", .vstr "news.site"),
           ("url", .vstr ("https" ++ "://" ++ "news.site" ++ "/" ++ "markets/article-1"))])
    ∧ pyKeys (.vdict
          [("title", .vstr "AAPL up"),
           ("summary", .vstr (if ("Apple rallied." : String) ≠ "" then "Apple rallied."
                              else pyTake "Full body." 250)),
           ("source", .vstr "news.site"),
           ("url", .vstr ("https" ++ "://" ++ "news.site" ++ "/" ++ "markets/article-1"))])
        = ["title", "summary", "source", "url"]
    ∧ (pyTake ("Full body." : String) 250).length ≤ 250 :=
  get_news_summary_shape "https" "news.site" "markets/article-1"
    ⟨"AAPL up", "Apple rallied.", "Full body."⟩ (by decide) (by decide)
